import Mathlib

/-!
Verification of the forge project scaffolder's composition engine:
a shallow embedding of `src/core/config_reader.py`,
`src/core/generators/orchestrator.py`, `src/core/project_generator.py`,
`src/core/generators/structure.py` (directory phase) and
`src/core/utils/file_operations.py` (`create_file`), with theorems about
planning, ordering, error handling and idempotence.
-/

namespace Forge

/-- JSON-like values as stored in `.forge/config.json`; only the shapes the
configuration reader inspects (strings, booleans, objects) are modelled. -/
inductive JVal where
  | str (s : String)
  | bool (b : Bool)
  | obj (fields : List (String × JVal))

/-- A JSON object is an association list of fields; the top-level configuration
dictionary is one such object. -/
abbrev Config := List (String × JVal)

/-- Dictionary lookup, Python's `d.get(key)`: the value of the first matching
key, or `None`. -/
def jget : List (String × JVal) → String → Option JVal
  | [], _ => none
  | (k, v) :: rest, key => if k = key then some v else jget rest key

/-- Python truthiness for the modelled JSON values: the empty string, `False`
and the empty object are falsy. -/
def jTruthy : JVal → Bool
  | JVal.str s => s != ""
  | JVal.bool b => b
  | JVal.obj fields => !fields.isEmpty

/-- Python's `v == s` for a fetched optional value against a string literal:
true exactly when the value is present and is that string. -/
def opt_is_str (v : Option JVal) (s : String) : Bool :=
  match v with
  | some (JVal.str t) => t == s
  | _ => false

/-! ## ConfigReader (`src/core/config_reader.py`) -/

/-- `ConfigReader.get_features`: `self.config.get('features', {})`. A missing
key yields the default empty dict. (A present non-dict value would crash the
Python on the subsequent `.get`; that error path is not modelled.) -/
def get_features (c : Config) : List (String × JVal) :=
  match jget c "features" with
  | some (JVal.obj f) => f
  | _ => []

/-- The dictionary `features.get('auth', {})` used by `has_auth`,
`get_auth_type` and `has_refresh_token`. -/
def auth_config_obj (c : Config) : List (String × JVal) :=
  match jget (get_features c) "auth" with
  | some (JVal.obj a) => a
  | _ => []

/-- `ConfigReader.get_auth_type`: `features.get('auth', {}).get('type')`. -/
def get_auth_type (c : Config) : Option JVal :=
  jget (auth_config_obj c) "type"

/-- `ConfigReader.has_auth`: `features.get('auth', {}).get('type') != 'none'`. -/
def has_auth (c : Config) : Bool :=
  !(opt_is_str (get_auth_type c) "none")

/-- `ConfigReader.get_database_config`: `self.config.get('database')`. -/
def get_database_config (c : Config) : Option JVal :=
  jget c "database"

/-- `ConfigReader.has_database`: `self.get_database_config() is not None`. -/
def has_database (c : Config) : Bool :=
  (get_database_config c).isSome

/-- `ConfigReader.get_database_type`:
`db_config.get('type') if db_config else None` — a falsy (empty) or absent
database dict yields `None`. -/
def get_database_type (c : Config) : Option JVal :=
  match get_database_config c with
  | some (JVal.obj d) => if d.isEmpty then none else jget d "type"
  | _ => none

/-- `ConfigReader.get_migration_tool`:
`db_config.get('migration_tool') if db_config else None`. -/
def get_migration_tool (c : Config) : Option JVal :=
  match get_database_config c with
  | some (JVal.obj d) => if d.isEmpty then none else jget d "migration_tool"
  | _ => none

/-- `ConfigReader.has_migration`: `self.get_migration_tool() is not None`. -/
def has_migration (c : Config) : Bool :=
  (get_migration_tool c).isSome

/-- `ConfigReader.has_docker`: truthiness of `features.get('docker', False)`. -/
def has_docker (c : Config) : Bool :=
  jTruthy ((jget (get_features c) "docker").getD (JVal.bool false))

/-- `ConfigReader.has_testing`: truthiness of `features.get('testing', False)`. -/
def has_testing (c : Config) : Bool :=
  jTruthy ((jget (get_features c) "testing").getD (JVal.bool false))

/-- `ConfigReader.validate_config`: returns `False` for a falsy (empty)
configuration dict, raises `ValueError` on the first missing required field
(`project_name`, then `features`), else returns `True`. -/
def validate_config (c : Config) : Except String Bool :=
  if c.isEmpty then Except.ok false
  else if (jget c "project_name").isNone then
    Except.error "Missing required field in config: project_name"
  else if (jget c "features").isNone then
    Except.error "Missing required field in config: features"
  else Except.ok true

/-! ## GeneratorOrchestrator (`src/core/generators/orchestrator.py`)

Each generator class instantiated by the orchestrator is one step; the plan is
the list `self.generators` built by `_initialize_generators`. -/

/-- The generator classes the orchestrator can instantiate, one constructor per
class, named after the source class. -/
inductive Gen where
  | pyproject
  | readme
  | gitignore
  | env
  | configBase
  | configApp
  | configLogger
  | loggerManager
  | configCors
  | configDatabase
  | configJwt
  | configEmail
  | configSettings
  | databaseConnection
  | databaseMySQL
  | databasePostgreSQL
  | databaseDependencies
  | security
  | coreDeps
  | userModel
  | userSchema
  | userCRUD
  | tokenModel
  | tokenSchema
  | tokenCRUD
  | authService
  | authRouter
  | userRouter
  | apiV1
  | emailService
  | emailTemplate
  | main
  | dockerfile
  | dockerCompose
  | dockerignore
  | conftest
  | testMain
  | testAuth
  | testUsers
deriving DecidableEq, Repr

/-- `GeneratorOrchestrator._get_base_config_generators`. -/
def get_base_config_generators : List Gen :=
  [Gen.pyproject, Gen.readme, Gen.gitignore, Gen.env,
   Gen.configBase, Gen.configApp, Gen.configLogger, Gen.loggerManager,
   Gen.configCors, Gen.configDatabase, Gen.configJwt, Gen.configEmail,
   Gen.configSettings]

/-- `GeneratorOrchestrator._get_database_generators`: the connection manager,
then the type-specific manager (MySQL or PostgreSQL) when one matches, then
the dependency-injection generator. -/
def get_database_generators (c : Config) : List Gen :=
  [Gen.databaseConnection] ++
    (if opt_is_str (get_database_type c) "MySQL" then [Gen.databaseMySQL]
     else if opt_is_str (get_database_type c) "PostgreSQL" then
       [Gen.databasePostgreSQL]
     else []) ++
    [Gen.databaseDependencies]

/-- `GeneratorOrchestrator._get_auth_generators`: core security and user
generators, token generators when `auth_type == "complete"`, auth service and
routers, and the email generators when `auth_type == "complete"`. -/
def get_auth_generators (c : Config) : List Gen :=
  [Gen.security, Gen.coreDeps, Gen.userModel, Gen.userSchema, Gen.userCRUD] ++
    (if opt_is_str (get_auth_type c) "complete" then
       [Gen.tokenModel, Gen.tokenSchema, Gen.tokenCRUD]
     else []) ++
    [Gen.authService, Gen.authRouter, Gen.userRouter, Gen.apiV1] ++
    (if opt_is_str (get_auth_type c) "complete" then
       [Gen.emailService, Gen.emailTemplate]
     else [])

/-- `GeneratorOrchestrator._get_docker_generators`. -/
def get_docker_generators : List Gen :=
  [Gen.dockerfile, Gen.dockerCompose, Gen.dockerignore]

/-- `GeneratorOrchestrator._get_test_generators`: conftest and main tests,
plus the auth tests when authentication is enabled. -/
def get_test_generators (c : Config) : List Gen :=
  [Gen.conftest, Gen.testMain] ++
    (if has_auth c then [Gen.testAuth, Gen.testUsers] else [])

/-- `GeneratorOrchestrator._initialize_generators`: the hardcoded plan —
base config generators, database generators, auth generators, the main entry
generator, docker generators if toggled, test generators if toggled. -/
def initialize_generators (c : Config) : List Gen :=
  get_base_config_generators ++
    get_database_generators c ++
    get_auth_generators c ++
    [Gen.main] ++
    (if has_docker c then get_docker_generators else []) ++
    (if has_testing c then get_test_generators c else [])

/-! ## Filesystem model and FileOperations (`src/core/utils/file_operations.py`)

The filesystem is a finite map from paths to file contents plus a set of
directories; paths mirror `pathlib.Path` as an absolute-flag with components.
OS-level failures (permissions, writing over a directory) are outside the
model, as in the spec's ArtifactWriter contract. -/

/-- A `pathlib.Path`: absolute flag plus components. -/
structure FPath where
  absolute : Bool
  comps : List String
deriving DecidableEq, Repr

/-- `FileOperations._resolve_path`: an absolute path stands alone, a relative
one is joined under the base path. -/
def resolve_path (base p : FPath) : FPath :=
  if p.absolute then p else ⟨base.absolute, base.comps ++ p.comps⟩

/-- `Path.parent`: drop the last component. -/
def parent_path (p : FPath) : FPath :=
  ⟨p.absolute, p.comps.dropLast⟩

/-- The destination tree: files with their text content, and directories. -/
structure FS where
  files : List (FPath × String)
  dirs : List FPath
deriving DecidableEq, Repr

/-- Content of the file at a path, if one exists. -/
def lookup_file : List (FPath × String) → FPath → Option String
  | [], _ => none
  | (q, s) :: rest, p => if q = p then some s else lookup_file rest p

/-- `Path.write_text` on the file map: replace the entry for the path, or add
one. -/
def update_file : List (FPath × String) → FPath → String → List (FPath × String)
  | [], p, s => [(p, s)]
  | (q, t) :: rest, p, s =>
      if q = p then (p, s) :: rest else (q, t) :: update_file rest p s

/-- `Path.exists()`: true for a file or a directory at the path. -/
def path_exists (fs : FS) (p : FPath) : Bool :=
  (lookup_file fs.files p).isSome || fs.dirs.contains p

/-- Add a directory if not already present (`exist_ok=True`). -/
def insert_dir (ds : List FPath) (d : FPath) : List FPath :=
  if d ∈ ds then ds else ds ++ [d]

/-- Add each directory of a list if not already present. -/
def insert_all (ds : List FPath) (l : List FPath) : List FPath :=
  l.foldl insert_dir ds

/-- The chain of directories `mkdir(parents=True)` must ensure for a path:
every nonempty component-wise ancestor, the path itself included. -/
def ancestors (p : FPath) : List FPath :=
  (List.range p.comps.length).map (fun i => ⟨p.absolute, p.comps.take (i + 1)⟩)

/-- `dir.mkdir(parents=True, exist_ok=True)`: ensure the directory and all its
ancestors exist. -/
def mkdir_p (fs : FS) (dir : FPath) : FS :=
  { fs with dirs := insert_all fs.dirs (ancestors dir) }

/-- `full_path.write_text(content)`. -/
def write_text (fs : FS) (p : FPath) (content : String) : FS :=
  { fs with files := update_file fs.files p content }

/-- The exception `FileOperations.create_file` raises. -/
inductive CreateError where
  | fileExists (p : FPath)
deriving DecidableEq, Repr

/-- `FileOperations.create_file`: resolve the path; raise `FileExistsError`
when the target exists and `overwrite` is false; otherwise ensure the parent
directories and write the content, returning the created path. The state is
returned alongside the result (unchanged on the error path, as the source
raises before any mutation). -/
def create_file (fs : FS) (base file_path : FPath) (content : String)
    (overwrite : Bool) : Except CreateError FPath × FS :=
  let full := resolve_path base file_path
  if path_exists fs full && !overwrite then
    (Except.error (CreateError.fileExists full), fs)
  else
    (Except.ok full, write_text (mkdir_p fs (parent_path full)) full content)

/-! ## StructureGenerator directory phase and ProjectGenerator
(`src/core/generators/structure.py`, `src/core/project_generator.py`) -/

/-- The `directories` list of `StructureGenerator.create_project_structure`:
the base directories plus the configuration-dependent ones. -/
def structure_directories (c : Config) : List FPath :=
  [⟨false, ["app"]⟩, ⟨false, ["app", "core"]⟩,
   ⟨false, ["app", "core", "config"]⟩,
   ⟨false, ["app", "core", "config", "modules"]⟩,
   ⟨false, ["app", "decorators"]⟩, ⟨false, ["app", "schemas"]⟩,
   ⟨false, ["app", "utils"]⟩, ⟨false, ["script"]⟩] ++
    (if has_database c then
       [⟨false, ["app", "core", "database"]⟩, ⟨false, ["app", "crud"]⟩,
        ⟨false, ["app", "models"]⟩]
     else []) ++
    (if has_auth c then
       [⟨false, ["app", "services"]⟩, ⟨false, ["app", "routers"]⟩,
        ⟨false, ["app", "routers", "v1"]⟩]
     else []) ++
    (if has_migration c then [⟨false, ["alembic"]⟩] else []) ++
    (if has_testing c then
       [⟨false, ["tests"]⟩, ⟨false, ["tests", "api"]⟩,
        ⟨false, ["tests", "unit"]⟩]
     else [])

/-- The directory-creation loop opening
`StructureGenerator.create_project_structure`: each directory is resolved
under the project root and created with `mkdir(parents=True, exist_ok=True)`.
This is the first filesystem mutation of structure generation. -/
def create_structure_dirs (c : Config) (root : FPath) (fs : FS) : FS :=
  (structure_directories c).foldl (fun acc d => mkdir_p acc (resolve_path root d)) fs

/-- `ProjectGenerator.generate` on an already-loaded configuration: it calls
`validate_config` — discarding the returned boolean, exactly as the source
does — and then creates the project structure. Only the directory-creation
phase of `StructureGenerator.create_project_structure` is modelled here: it is
the first mutation of the destination tree, which is what the zero-writes
guarantee is about; the file generation that follows it is elided. -/
def project_generate (c : Config) (root : FPath) (fs : FS) : Except String FS :=
  match validate_config c with
  | Except.error e => Except.error e
  | Except.ok _ => Except.ok (create_structure_dirs c root fs)

/-! ## Execution loop (`GeneratorOrchestrator.generate`)

`generate` runs `generator.generate()` for each planned generator in order;
the bodies are opaque text emission, so a step's effect is an arbitrary action
returning either a raised error or an updated tree. A raised exception
propagates out of the bare `for` loop, aborting the remaining steps. -/

/-- Errors a step's `generate()` can raise; an artifact conflict is
`FileExistsError` from `create_file` with `overwrite=False`. -/
inductive GenError where
  | artifactConflict (p : FPath)
  | stepFailure
deriving DecidableEq, Repr

/-- `GeneratorOrchestrator.generate`: run each step in plan order under Python
exception semantics — a step that raises ends the loop at once, and no record
of the outcome is kept. -/
def run_generators (act : Gen → FS → Option GenError × FS) :
    List Gen → FS → Option GenError × FS
  | [], fs => (none, fs)
  | g :: gs, fs =>
      match act g fs with
      | (some e, fs1) => (some e, fs1)
      | (none, fs1) => run_generators act gs fs1

/-! ## Step classes and concrete configurations used by the theorems -/

/-- The persistence steps: generators emitted by `_get_database_generators`. -/
def persistence_steps : List Gen :=
  [Gen.databaseConnection, Gen.databaseMySQL, Gen.databasePostgreSQL,
   Gen.databaseDependencies]

/-- The authentication steps of `_get_auth_generators` up to the auth
service: security, user and token generators. The email sub-steps are classed
separately. -/
def authentication_steps : List Gen :=
  [Gen.security, Gen.coreDeps, Gen.userModel, Gen.userSchema, Gen.userCRUD,
   Gen.tokenModel, Gen.tokenSchema, Gen.tokenCRUD, Gen.authService]

/-- The route steps: the router generators. -/
def route_steps : List Gen :=
  [Gen.authRouter, Gen.userRouter, Gen.apiV1]

/-- The deployment steps: the docker generators. -/
def deployment_steps : List Gen :=
  [Gen.dockerfile, Gen.dockerCompose, Gen.dockerignore]

/-- Every step of `xs` that occurs in the plan `l` is placed before every step
of `ys` that occurs in `l`. -/
def phase_before (l xs ys : List Gen) : Bool :=
  (xs.filter (fun a => l.contains a)).all (fun a =>
    (ys.filter (fun b => l.contains b)).all (fun b =>
      decide (l.indexOf a < l.indexOf b)))

/-- Scenario 1 configuration: no database, authentication mode `none`, no
toggles. -/
def cfg_scenario1 : Config :=
  [("project_name", JVal.str "demo"),
   ("features", JVal.obj [("auth", JVal.obj [("type", JVal.str "none")])])]

/-- Scenario 2 configuration: relational database (PostgreSQL), complete
authentication, docker and testing toggled on. -/
def cfg_scenario2 : Config :=
  [("project_name", JVal.str "demo"),
   ("database", JVal.obj
     [("type", JVal.str "PostgreSQL"), ("orm", JVal.str "SQLAlchemy"),
      ("migration_tool", JVal.str "Alembic")]),
   ("features", JVal.obj
     [("auth", JVal.obj
        [("type", JVal.str "complete"), ("refresh_token", JVal.bool true)]),
      ("cors", JVal.bool true), ("dev_tools", JVal.bool true),
      ("testing", JVal.bool true), ("docker", JVal.bool true)])]

/-- Scenario 3 configuration: complete authentication with no database. -/
def cfg_scenario3 : Config :=
  [("project_name", JVal.str "demo"),
   ("features", JVal.obj [("auth", JVal.obj [("type", JVal.str "complete")])])]

/-- A recording test double for step actions: the pyproject step raises an
artifact conflict, every other step writes its artifact (`README.md` for the
readme step). -/
def conflict_action (g : Gen) (fs : FS) : Option GenError × FS :=
  if g = Gen.pyproject then
    (some (GenError.artifactConflict ⟨false, ["pyproject.toml"]⟩), fs)
  else
    (none, write_text fs ⟨false, ["README.md"]⟩ "readme")

/-! ## Support lemmas about the filesystem model -/

/-- Looking up a path right after writing it yields the written content. -/
theorem lookup_update_self (l : List (FPath × String)) (p : FPath) (s : String) :
    lookup_file (update_file l p s) p = some s := by
  induction l with
  | nil => simp [update_file, lookup_file]
  | cons hd tl ih =>
    obtain ⟨q, t⟩ := hd
    by_cases h : q = p
    · simp [update_file, h, lookup_file]
    · simp [update_file, h, lookup_file, ih]

/-- Writing the same content to the same path twice equals writing it once. -/
theorem update_update (l : List (FPath × String)) (p : FPath) (s : String) :
    update_file (update_file l p s) p s = update_file l p s := by
  induction l with
  | nil => simp [update_file]
  | cons hd tl ih =>
    obtain ⟨q, t⟩ := hd
    by_cases h : q = p
    · simp [update_file, h]
    · simp [update_file, h, ih]

/-- Inserting a directory keeps the directories already present. -/
theorem mem_insert_dir_of_mem {a : FPath} {ds : List FPath} (d : FPath)
    (h : a ∈ ds) : a ∈ insert_dir ds d := by
  by_cases hd : d ∈ ds
  · simpa [insert_dir, hd] using h
  · simp [insert_dir, hd, List.mem_append]
    exact Or.inl h

/-- The inserted directory is present after insertion. -/
theorem self_mem_insert_dir (ds : List FPath) (d : FPath) :
    d ∈ insert_dir ds d := by
  by_cases hd : d ∈ ds
  · simp [insert_dir, hd]
  · simp [insert_dir, hd]

/-- Inserting a list of directories keeps the directories already present. -/
theorem mem_insert_all_of_mem {a : FPath} (l : List FPath) :
    ∀ {ds : List FPath}, a ∈ ds → a ∈ insert_all ds l := by
  induction l with
  | nil => intro ds h; simpa [insert_all] using h
  | cons hd tl ih =>
    intro ds h
    show a ∈ insert_all (insert_dir ds hd) tl
    exact ih (mem_insert_dir_of_mem hd h)

/-- Every directory of the inserted list is present after insertion. -/
theorem mem_insert_all_of_mem_list {a : FPath} :
    ∀ (l : List FPath) (ds : List FPath), a ∈ l → a ∈ insert_all ds l := by
  intro l
  induction l with
  | nil => intro ds h; cases h
  | cons hd tl ih =>
    intro ds h
    rcases List.mem_cons.mp h with h1 | h1
    · subst h1
      show a ∈ insert_all (insert_dir ds a) tl
      exact mem_insert_all_of_mem tl (self_mem_insert_dir ds a)
    · show a ∈ insert_all (insert_dir ds hd) tl
      exact ih (insert_dir ds hd) h1

/-- Inserting directories that are all present already changes nothing. -/
theorem insert_all_eq_self (l : List FPath) :
    ∀ ds : List FPath, (∀ x ∈ l, x ∈ ds) → insert_all ds l = ds := by
  induction l with
  | nil => intro ds _; rfl
  | cons hd tl ih =>
    intro ds h
    have hmem : hd ∈ ds := h hd (List.mem_cons_self hd tl)
    have hins : insert_dir ds hd = ds := by simp [insert_dir, hmem]
    show insert_all (insert_dir ds hd) tl = ds
    rw [hins]
    exact ih ds (fun x hx => h x (List.mem_cons_of_mem hd hx))

/-- Inserting the same list of directories twice equals inserting it once. -/
theorem insert_all_idem (ds : List FPath) (l : List FPath) :
    insert_all (insert_all ds l) l = insert_all ds l :=
  insert_all_eq_self l _ (fun _ hx => mem_insert_all_of_mem_list l ds hx)

/-- A fetched value equals a string literal exactly when it is that string. -/
theorem opt_is_str_true_iff (v : Option JVal) (s : String) :
    opt_is_str v s = true ↔ v = some (JVal.str s) := by
  cases v with
  | none => simp [opt_is_str]
  | some w => cases w <;> simp [opt_is_str]

/-! ## Claim theorems -/

/-- Claim C1, counterexample: for the configuration with `database: none` and
`auth: none`, the plan built by `_initialize_generators` still contains the
database-dependent steps (connection manager, dependency injection) and the
auth-dependent steps (security module, auth service), so it does not exclude
every database-dependent and auth-dependent step as claimed. -/
theorem scenario1_plan_retains_db_auth_steps :
    Gen.databaseConnection ∈ initialize_generators cfg_scenario1
    ∧ Gen.databaseDependencies ∈ initialize_generators cfg_scenario1
    ∧ Gen.security ∈ initialize_generators cfg_scenario1
    ∧ Gen.authService ∈ initialize_generators cfg_scenario1 := by decide

/-- Claim C1, amended: for every configuration with no database and
authentication mode `none`, the plan unconditionally retains the core
database steps and the core auth steps; only the database-type-specific
managers, the token steps, the email steps and the auth tests are excluded,
with docker and test steps appearing exactly when their toggles hold. -/
theorem plan_without_database_or_auth (c : Config)
    (hdb : get_database_type c = none)
    (hauth : get_auth_type c = some (JVal.str "none")) :
    initialize_generators c =
      get_base_config_generators ++
        [Gen.databaseConnection, Gen.databaseDependencies] ++
        [Gen.security, Gen.coreDeps, Gen.userModel, Gen.userSchema,
         Gen.userCRUD, Gen.authService, Gen.authRouter, Gen.userRouter,
         Gen.apiV1] ++
        [Gen.main] ++
        (if has_docker c then get_docker_generators else []) ++
        (if has_testing c then [Gen.conftest, Gen.testMain] else []) := by
  have hm : opt_is_str (get_database_type c) "MySQL" = false := by
    rw [hdb]; decide
  have hp : opt_is_str (get_database_type c) "PostgreSQL" = false := by
    rw [hdb]; decide
  have hc : opt_is_str (get_auth_type c) "complete" = false := by
    rw [hauth]; decide
  have ha : has_auth c = false := by unfold has_auth; rw [hauth]; decide
  simp [initialize_generators, get_database_generators, get_auth_generators,
    get_test_generators, hm, hp, hc, ha]

/-- Claim C1, witness: the amended plan equation evaluated at the Scenario 1
configuration. -/
theorem plan_without_database_or_auth_witness :
    initialize_generators cfg_scenario1 =
      get_base_config_generators ++
        [Gen.databaseConnection, Gen.databaseDependencies] ++
        [Gen.security, Gen.coreDeps, Gen.userModel, Gen.userSchema,
         Gen.userCRUD, Gen.authService, Gen.authRouter, Gen.userRouter,
         Gen.apiV1] ++
        [Gen.main] ++
        (if has_docker cfg_scenario1 then get_docker_generators else []) ++
        (if has_testing cfg_scenario1 then [Gen.conftest, Gen.testMain]
         else []) :=
  plan_without_database_or_auth cfg_scenario1 rfl rfl

/-- Claim C2, counterexample: with `auth: complete` and no database, planning
does not fail with any error — `_initialize_generators` performs no
dependency validation and returns this complete plan, token and email steps
included. -/
theorem scenario3_planning_succeeds :
    initialize_generators cfg_scenario3 =
      [Gen.pyproject, Gen.readme, Gen.gitignore, Gen.env, Gen.configBase,
       Gen.configApp, Gen.configLogger, Gen.loggerManager, Gen.configCors,
       Gen.configDatabase, Gen.configJwt, Gen.configEmail, Gen.configSettings,
       Gen.databaseConnection, Gen.databaseDependencies,
       Gen.security, Gen.coreDeps, Gen.userModel, Gen.userSchema,
       Gen.userCRUD, Gen.tokenModel, Gen.tokenSchema, Gen.tokenCRUD,
       Gen.authService, Gen.authRouter, Gen.userRouter, Gen.apiV1,
       Gen.emailService, Gen.emailTemplate, Gen.main] := by decide

/-- Claim C2, amended: planning never fails — for every configuration with
`auth = complete` and no database the orchestrator silently returns a plan
that contains the auth-complete steps (token model, email service and
template) while containing no database-type-specific step, rather than
raising an unsatisfied-dependency error. -/
theorem plan_auth_complete_without_database (c : Config)
    (hauth : get_auth_type c = some (JVal.str "complete"))
    (hdb : get_database_type c = none) :
    Gen.tokenModel ∈ initialize_generators c
    ∧ Gen.emailService ∈ initialize_generators c
    ∧ Gen.emailTemplate ∈ initialize_generators c
    ∧ Gen.databaseMySQL ∉ initialize_generators c
    ∧ Gen.databasePostgreSQL ∉ initialize_generators c := by
  have hm : opt_is_str (get_database_type c) "MySQL" = false := by
    rw [hdb]; decide
  have hp : opt_is_str (get_database_type c) "PostgreSQL" = false := by
    rw [hdb]; decide
  have hc : opt_is_str (get_auth_type c) "complete" = true := by
    rw [hauth]; decide
  have ha : has_auth c = true := by unfold has_auth; rw [hauth]; decide
  cases hd : has_docker c <;> cases ht : has_testing c <;>
    simp [initialize_generators, get_database_generators, get_auth_generators,
      get_test_generators, get_base_config_generators, get_docker_generators,
      hm, hp, hc, ha, hd, ht]

/-- Claim C2, witness: the amended membership facts evaluated at the
Scenario 3 configuration. -/
theorem plan_auth_complete_without_database_witness :
    Gen.tokenModel ∈ initialize_generators cfg_scenario3
    ∧ Gen.emailService ∈ initialize_generators cfg_scenario3
    ∧ Gen.emailTemplate ∈ initialize_generators cfg_scenario3
    ∧ Gen.databaseMySQL ∉ initialize_generators cfg_scenario3
    ∧ Gen.databasePostgreSQL ∉ initialize_generators cfg_scenario3 :=
  plan_auth_complete_without_database cfg_scenario3 rfl rfl

/-- Claim C4: planning is deterministic — two orchestrators built over equal
configurations produce identical step sequences, since the plan is a pure
function of the configuration. -/
theorem planning_deterministic (c1 c2 : Config) (h : c1 = c2) :
    initialize_generators c1 = initialize_generators c2 := by rw [h]

/-- Claim C4, witness: determinism applied at the Scenario 2 configuration. -/
theorem planning_deterministic_witness :
    initialize_generators cfg_scenario2 = initialize_generators cfg_scenario2 :=
  planning_deterministic cfg_scenario2 cfg_scenario2 rfl

/-- Claim C3: for every configuration with a relational database (MySQL or
PostgreSQL), complete authentication and docker enabled, the plan places the
persistence steps before the authentication steps, the authentication steps
before the route steps, and the route steps before the deployment steps; and
because the mode is complete, the email service and email template steps are
present. -/
theorem plan_phase_ordering (c : Config)
    (hdb : get_database_type c = some (JVal.str "MySQL")
      ∨ get_database_type c = some (JVal.str "PostgreSQL"))
    (hauth : get_auth_type c = some (JVal.str "complete"))
    (hdock : has_docker c = true) :
    phase_before (initialize_generators c) persistence_steps
      authentication_steps = true
    ∧ phase_before (initialize_generators c) authentication_steps
      route_steps = true
    ∧ phase_before (initialize_generators c) route_steps
      deployment_steps = true
    ∧ Gen.emailService ∈ initialize_generators c
    ∧ Gen.emailTemplate ∈ initialize_generators c := by
  have hc : opt_is_str (get_auth_type c) "complete" = true := by
    rw [hauth]; decide
  have ha : has_auth c = true := by unfold has_auth; rw [hauth]; decide
  rcases hdb with h | h
  · have hm : opt_is_str (get_database_type c) "MySQL" = true := by
      rw [h]; decide
    cases ht : has_testing c <;>
      · simp only [initialize_generators, get_database_generators,
          get_auth_generators, get_test_generators,
          get_base_config_generators, get_docker_generators,
          hm, hc, ha, hdock, ht, if_true, if_false]
        decide
  · have hm : opt_is_str (get_database_type c) "MySQL" = false := by
      rw [h]; decide
    have hp : opt_is_str (get_database_type c) "PostgreSQL" = true := by
      rw [h]; decide
    cases ht : has_testing c <;>
      · simp only [initialize_generators, get_database_generators,
          get_auth_generators, get_test_generators,
          get_base_config_generators, get_docker_generators,
          hm, hp, hc, ha, hdock, ht, if_true, if_false]
        decide

/-- Claim C3, witness: the phase ordering and email-step presence evaluated at
the Scenario 2 configuration. -/
theorem plan_phase_ordering_witness :
    phase_before (initialize_generators cfg_scenario2) persistence_steps
      authentication_steps = true
    ∧ phase_before (initialize_generators cfg_scenario2) authentication_steps
      route_steps = true
    ∧ phase_before (initialize_generators cfg_scenario2) route_steps
      deployment_steps = true
    ∧ Gen.emailService ∈ initialize_generators cfg_scenario2
    ∧ Gen.emailTemplate ∈ initialize_generators cfg_scenario2 :=
  plan_phase_ordering cfg_scenario2 (Or.inr rfl) rfl rfl

set_option maxRecDepth 10000 in
/-- Claim C5: the empty configuration dictionary is missing both required
fields, yet `ProjectGenerator.generate` does not fail — `validate_config`
returns `False` for a falsy dict, `generate` discards that boolean, and the
project structure phase then mutates the destination tree (here it creates
the `app` directory under the project root), contradicting the guarantee of
a configuration error with zero writes. -/
theorem empty_config_passes_validation_and_writes :
    validate_config [] = Except.ok false
    ∧ jget ([] : Config) "project_name" = none
    ∧ jget ([] : Config) "features" = none
    ∧ project_generate [] ⟨true, ["srv"]⟩ ⟨[], []⟩
        = Except.ok (create_structure_dirs [] ⟨true, ["srv"]⟩ ⟨[], []⟩)
    ∧ FPath.mk true ["srv", "app"]
        ∈ (create_structure_dirs [] ⟨true, ["srv"]⟩ ⟨[], []⟩).dirs
    ∧ (⟨[], []⟩ : FS).dirs = [] := by
  refine ⟨rfl, rfl, rfl, rfl, ?_, rfl⟩
  decide

/-- Claim C6: `create_file` raises the already-exists error exactly when the
resolved target exists and `overwrite` is false; otherwise it returns the
resolved path, the written content is at that path, and every parent
directory of the path is present. -/
theorem create_file_spec (fs : FS) (base p : FPath) (content : String)
    (ow : Bool) :
    ((create_file fs base p content ow).1
        = Except.error (CreateError.fileExists (resolve_path base p))
      ↔ path_exists fs (resolve_path base p) = true ∧ ow = false)
    ∧ (¬(path_exists fs (resolve_path base p) = true ∧ ow = false) →
        (create_file fs base p content ow).1
          = Except.ok (resolve_path base p)
        ∧ lookup_file (create_file fs base p content ow).2.files
            (resolve_path base p) = some content
        ∧ ∀ d ∈ ancestors (parent_path (resolve_path base p)),
            d ∈ (create_file fs base p content ow).2.dirs) := by
  constructor
  · cases hex : path_exists fs (resolve_path base p) <;> cases ow <;>
      simp [create_file, hex]
  · intro h
    have hb : (path_exists fs (resolve_path base p) && !ow) = false := by
      cases hex : path_exists fs (resolve_path base p) <;> cases ow <;>
        simp_all
    refine ⟨?_, ?_, ?_⟩
    · simp [create_file, hb]
    · simp [create_file, hb, write_text, mkdir_p, lookup_update_self]
    · intro d hd
      simp only [create_file, hb, Bool.false_eq_true, if_false, write_text,
        mkdir_p]
      exact mem_insert_all_of_mem_list _ fs.dirs hd

/-- Claim C6, witness: creating a nested file in an empty tree succeeds, and
the content is found at the resolved path. -/
theorem create_file_spec_witness :
    (create_file ⟨[], []⟩ ⟨true, ["r"]⟩ ⟨false, ["a", "b.txt"]⟩ "hi" false).1
      = Except.ok ⟨true, ["r", "a", "b.txt"]⟩
    ∧ lookup_file
        (create_file ⟨[], []⟩ ⟨true, ["r"]⟩ ⟨false, ["a", "b.txt"]⟩ "hi"
          false).2.files
        ⟨true, ["r", "a", "b.txt"]⟩ = some "hi" := by
  have h := (create_file_spec ⟨[], []⟩ ⟨true, ["r"]⟩ ⟨false, ["a", "b.txt"]⟩
    "hi" false).2 (by decide)
  exact ⟨h.1, h.2.1⟩

/-- Claim C7: `create_file` with `overwrite = true` is idempotent — applying
it twice for the same path and content returns the same result and leaves the
same tree as applying it once, so a rerun of the plan's writes with overwrite
produces byte-identical artifacts. -/
theorem create_file_overwrite_idempotent (fs : FS) (base p : FPath)
    (content : String) :
    create_file (create_file fs base p content true).2 base p content true
      = create_file fs base p content true := by
  simp [create_file, write_text, mkdir_p, update_update, insert_all_idem]

/-- Claim C8, counterexample: running the Scenario 1 plan with an action set
where the first step (pyproject) raises an artifact conflict ends the run at
once with that error: no report records the step as failed, and the later
independent readme step does not execute — its artifact is absent from the
final tree. -/
theorem step_failure_aborts_run :
    run_generators conflict_action (initialize_generators cfg_scenario1)
        ⟨[], []⟩
      = (some (GenError.artifactConflict ⟨false, ["pyproject.toml"]⟩),
         ⟨[], []⟩)
    ∧ lookup_file
        (run_generators conflict_action (initialize_generators cfg_scenario1)
          ⟨[], []⟩).2.files
        ⟨false, ["README.md"]⟩ = none :=
  ⟨rfl, rfl⟩

/-- Claim C8, amended: when a step raises during execution, the orchestrator's
bare `for` loop propagates the exception immediately — the run ends with that
error and the state the failing step left, no later step executes, and no
per-step outcome is recorded anywhere. -/
theorem run_generators_aborts_on_error
    (act : Gen → FS → Option GenError × FS) (g : Gen) (gs : List Gen)
    (fs fs1 : FS) (e : GenError) (h : act g fs = (some e, fs1)) :
    run_generators act (g :: gs) fs = (some e, fs1) := by
  simp [run_generators, h]

/-- Claim C8, witness: the abort behavior applied to the conflicting action on
a two-step plan. -/
theorem run_generators_aborts_on_error_witness :
    run_generators conflict_action (Gen.pyproject :: [Gen.readme]) ⟨[], []⟩
      = (some (GenError.artifactConflict ⟨false, ["pyproject.toml"]⟩),
         ⟨[], []⟩) :=
  run_generators_aborts_on_error conflict_action Gen.pyproject [Gen.readme]
    ⟨[], []⟩ ⟨[], []⟩ (GenError.artifactConflict ⟨false, ["pyproject.toml"]⟩)
    rfl

/-- Claim C9: when the features mapping has no `auth` key, `has_auth` is true
(the missing value is unequal to the string `none`) while `get_auth_type` is
`None`; and `has_auth` is false exactly when the configured auth type is the
string `none`. -/
theorem auth_detection_spec (c : Config) :
    (jget (get_features c) "auth" = none →
      has_auth c = true ∧ get_auth_type c = none)
    ∧ (has_auth c = false ↔ get_auth_type c = some (JVal.str "none")) := by
  constructor
  · intro h
    have hobj : auth_config_obj c = [] := by
      unfold auth_config_obj
      rw [h]
    constructor
    · unfold has_auth get_auth_type
      rw [hobj]
      rfl
    · unfold get_auth_type
      rw [hobj]
      rfl
  · simp [has_auth, opt_is_str_true_iff]

/-- Claim C9, witness: a configuration whose features contain only a docker
toggle — `has_auth` is true and `get_auth_type` is `None`. -/
theorem auth_detection_spec_witness :
    has_auth [("features", JVal.obj [("docker", JVal.bool true)])] = true
    ∧ get_auth_type [("features", JVal.obj [("docker", JVal.bool true)])]
        = none :=
  (auth_detection_spec _).1 rfl

/-- Claim C10: the error path of `create_file` is atomic — whenever the target
exists and `overwrite` is false, the raise happens before any mutation, so
the returned tree is exactly the input tree: no directory is created and no
file content changes. -/
theorem create_file_error_leaves_fs_unchanged (fs : FS) (base p : FPath)
    (content : String)
    (h : path_exists fs (resolve_path base p) = true) :
    create_file fs base p content false
      = (Except.error (CreateError.fileExists (resolve_path base p)), fs) := by
  simp [create_file, h]

/-- Claim C10, witness: attempting to overwrite an existing file without
`overwrite` errors and returns the unchanged tree. -/
theorem create_file_error_leaves_fs_unchanged_witness :
    create_file ⟨[(⟨true, ["r", "a.txt"]⟩, "old")], []⟩ ⟨true, ["r"]⟩
        ⟨false, ["a.txt"]⟩ "new" false
      = (Except.error (CreateError.fileExists ⟨true, ["r", "a.txt"]⟩),
         ⟨[(⟨true, ["r", "a.txt"]⟩, "old")], []⟩) :=
  create_file_error_leaves_fs_unchanged ⟨[(⟨true, ["r", "a.txt"]⟩, "old")], []⟩
    ⟨true, ["r"]⟩ ⟨false, ["a.txt"]⟩ "new" (by decide)

end Forge
